import Mathlib

/-!
Verification of the wasixcc compiler driver (wasix-org/wasixcc).

This file gives a shallow embedding of the driver's data model and of the
operations relevant to the argument classifier, module-kind inference,
settings resolution and the compile/link/post-optimize pipeline, translated
from `src/compiler.rs`, `src/lib.rs` and `src/main.rs`.  External
subprocesses are opaque collaborators: the pipeline functions return the
list of commands they would spawn (each spawn is assumed to exit with
status zero), and fallible driver logic returns `Except Err`.
-/

namespace Wasixcc

/-- Errors raised by the driver (`bail!` sites and the internal panic in
`link_inputs`), represented structurally so that each error site is
distinguishable. -/
inductive Err where
  | expectedArgAfter (flag : String)
  | invalidArg (arg : String)
  | noInput
  | onlyBinaries (kind : String)
  | internalObjectLink
  deriving DecidableEq, Repr

/-- A constructed external-tool invocation: tool path and argument vector. -/
structure Cmd where
  tool : String
  args : List String
  deriving DecidableEq, Repr

/-- `ModuleKind` from `compiler.rs`. -/
inductive ModuleKind where
  | StaticMain
  | DynamicMain
  | SharedLibrary
  | ObjectFile
  deriving DecidableEq, Repr, Inhabited

def ModuleKind.requires_pic : ModuleKind → Bool
  | .DynamicMain | .SharedLibrary => true
  | _ => false

def ModuleKind.is_binary : ModuleKind → Bool
  | .StaticMain | .DynamicMain | .SharedLibrary => true
  | .ObjectFile => false

def ModuleKind.is_executable : ModuleKind → Bool
  | .StaticMain | .DynamicMain => true
  | _ => false

/-- Debug print of a `ModuleKind`, used in the `link_only` error message. -/
def ModuleKind.debugName : ModuleKind → String
  | .StaticMain => "StaticMain"
  | .DynamicMain => "DynamicMain"
  | .SharedLibrary => "SharedLibrary"
  | .ObjectFile => "ObjectFile"

/-- `OptLevel` from `compiler.rs`. -/
inductive OptLevel where
  | O0 | O1 | O2 | O3 | O4 | Os | Oz
  deriving DecidableEq, Repr, Inhabited

/-- `DebugLevel` from `compiler.rs`. -/
inductive DebugLevel where
  | None | G0 | G1 | G2 | G3
  deriving DecidableEq, Repr, Inhabited

/-- `LlvmLocation` from `lib.rs`. -/
inductive LlvmLocation where
  | FromPath (path : String)
  | FromSystem (versionSuffix : Nat)
  deriving DecidableEq, Repr, Inhabited

/-- `LlvmLocation::get_tool_path`. -/
def LlvmLocation.get_tool_path : LlvmLocation → String → String
  | .FromPath path, tool => path ++ "/" ++ tool
  | .FromSystem v, tool => tool ++ "-" ++ toString v

/-- `UserSettings` for the canonical pipeline in `compiler.rs` (the field
list is the one its unit tests construct).  Paths are modelled as strings. -/
structure UserSettings where
  sysroot_location : Option String
  llvm_location : LlvmLocation
  extra_compiler_flags : List String
  extra_linker_flags : List String
  force_wasm_opt : Bool
  wasm_opt_flags : List String
  module_kind : Option ModuleKind
  wasm_exceptions : Bool
  pic : Bool
  deriving DecidableEq, Repr, Inhabited

/-- `UserSettings::module_kind()`: the resolved kind, defaulting to
`StaticMain` when none was set or inferred. -/
def UserSettings.moduleKind (us : UserSettings) : ModuleKind :=
  us.module_kind.getD .StaticMain

/-- Accessor mirroring `UserSettings::sysroot_location()`; the settings
resolver guarantees presence before compiling or linking, so the default
is never observed on those paths. -/
def UserSettings.sysrootLocation (us : UserSettings) : String :=
  us.sysroot_location.getD ""

/-- `BuildSettings` from `compiler.rs`: settings derived strictly from
compiler flags. -/
structure BuildSettings where
  opt_level : OptLevel
  debug_level : DebugLevel
  use_wasm_opt : Bool
  deriving DecidableEq, Repr, Inhabited

/-- `PreparedArgs` from `compiler.rs`.  Paths are modelled as strings. -/
structure PreparedArgs where
  compiler_args : List String
  linker_args : List String
  compiler_inputs : List String
  linker_inputs : List String
  output : Option String
  deriving DecidableEq, Repr, Inhabited

/-- `State` from `compiler.rs`. -/
structure State where
  user_settings : UserSettings
  build_settings : BuildSettings
  args : PreparedArgs
  cxx : Bool
  temp_dir : String
  deriving DecidableEq, Repr, Inhabited

/-- `CLANG_FLAGS_WITH_ARGS` from `compiler.rs`: clang flags that consume a
following argument. -/
def CLANG_FLAGS_WITH_ARGS : List String :=
  ["-MT", "-MF", "-MJ", "-MQ", "-D", "-U", "-o", "-x", "-Xpreprocessor",
   "-include", "-imacros", "-idirafter", "-iprefix", "-iwithprefix",
   "-iwithprefixbefore", "-isysroot", "-imultilib", "-A", "-isystem",
   "-iquote", "-install_name", "-compatibility_version", "-mllvm",
   "-mthread-model", "-current_version", "-I", "-l", "-L", "-include-pch",
   "-u", "-undefined", "-target", "-Xlinker", "-Xclang", "-z"]

/-- `WASM_LD_FLAGS_WITH_ARGS` from `compiler.rs`. -/
def WASM_LD_FLAGS_WITH_ARGS : List String :=
  ["-o", "-mllvm", "-L", "-l", "-m", "-O", "-y", "-z"]

/-- Boolean prefix test on character lists (kernel-reducible replacement
for the byte-based `String.startsWith`). -/
def charsPrefixOf : List Char → List Char → Bool
  | [], _ => true
  | _ :: _, [] => false
  | c :: cs, d :: ds => c == d && charsPrefixOf cs ds

/-- Rust `str::starts_with` on our string model. -/
def strStartsWith (s p : String) : Bool :=
  charsPrefixOf p.data s.data

/-- Drop the first `n` characters of a string (used to model
`strip_prefix` after a successful `starts_with` test). -/
def strDrop (s : String) (n : Nat) : String :=
  ⟨s.data.drop n⟩

/-- Rust `str::ends_with` on our string model. -/
def strEndsWith (s p : String) : Bool :=
  charsPrefixOf p.data.reverse s.data.reverse

/-- Split a character list at every occurrence of `c`. -/
def splitOnChar (c : Char) : List Char → List (List Char)
  | [] => [[]]
  | x :: xs =>
    if x == c then [] :: splitOnChar c xs
    else
      match splitOnChar c xs with
      | [] => [[x]]
      | h :: t => (x :: h) :: t

/-- Rust `str::split(c)` on our string model. -/
def strSplitOnChar (s : String) (c : Char) : List String :=
  (splitOnChar c s.data).map String.mk

/-- Rust `str::contains(c)` on our string model. -/
def strContainsChar (s : String) (c : Char) : Bool :=
  s.data.contains c

/-- Split a character list at the first occurrence of `c`, if any. -/
def splitOnceChar (c : Char) : List Char → Option (List Char × List Char)
  | [] => none
  | x :: xs =>
    if x == c then some ([], xs)
    else (splitOnceChar c xs).map (fun p => (x :: p.1, p.2))

/-- Rust `str::split_once(',')`: split at the first comma, if any. -/
def splitOnceComma (s : String) : Option (String × String) :=
  (splitOnceChar ',' s.data).map (fun p => (String.mk p.1, String.mk p.2))

/-- File name of a path: the last nonempty `/`-separated component.  (The
Rust original uses `Path::file_name`, which differs only on degenerate
paths such as `".."` that no claim exercises.) -/
def pathFileName (p : String) : Option String :=
  ((strSplitOnChar p '/').filter (fun c => c ≠ "")).getLast?

/-- Rust `Path::extension`: the part of the file name after the last dot,
or none if there is no dot or the only dot is leading. -/
def pathExtension (p : String) : Option String :=
  match pathFileName p with
  | none => none
  | some name =>
    match strSplitOnChar name '.' with
    | [] => none
    | [_] => none
    | parts =>
      if strStartsWith name "." && parts.length == 2 then none
      else parts.getLast?

/-- `deduce_module_kind` from `compiler.rs`: infer a module kind from an
output-path extension. -/
def deduce_module_kind (extension : String) : Option ModuleKind :=
  match extension with
  | "o" => some .ObjectFile
  | "so" => some .SharedLibrary
  | _ => none

/-- `update_build_settings_from_arg` from `compiler.rs`.  Returns the
updated build settings and user settings together with the flag telling
whether the argument should be kept in the compiler args. -/
def update_build_settings_from_arg (arg : String) (build_settings : BuildSettings)
    (user_settings : UserSettings) : Except Err (BuildSettings × UserSettings × Bool) :=
  if strStartsWith arg "-O" then
    match strDrop arg 2 with
    | "0" => .ok ({ build_settings with opt_level := .O0 }, user_settings, true)
    | "1" => .ok ({ build_settings with opt_level := .O1 }, user_settings, true)
    | "2" => .ok ({ build_settings with opt_level := .O2 }, user_settings, true)
    | "3" => .ok ({ build_settings with opt_level := .O3 }, user_settings, true)
    | "4" => .ok ({ build_settings with opt_level := .O4 }, user_settings, true)
    | "s" => .ok ({ build_settings with opt_level := .Os }, user_settings, true)
    | "z" => .ok ({ build_settings with opt_level := .Oz }, user_settings, true)
    | _ => .error (.invalidArg arg)
  else if strStartsWith arg "-g" then
    match strDrop arg 2 with
    | "" => .ok ({ build_settings with debug_level := .G2 }, user_settings, true)
    | "0" => .ok ({ build_settings with debug_level := .G0 }, user_settings, true)
    | "1" => .ok ({ build_settings with debug_level := .G1 }, user_settings, true)
    | "2" => .ok ({ build_settings with debug_level := .G2 }, user_settings, true)
    | "3" => .ok ({ build_settings with debug_level := .G3 }, user_settings, true)
    | _ => .error (.invalidArg arg)
  else if arg == "-fwasm-exceptions" then
    .ok (build_settings, { user_settings with wasm_exceptions := true }, false)
  else if arg == "-fno-wasm-exceptions" then
    .ok (build_settings, { user_settings with wasm_exceptions := false }, true)
  else if arg == "--no-wasm-opt" then
    .ok ({ build_settings with use_wasm_opt := false }, user_settings, false)
  else
    .ok (build_settings, user_settings, true)

/-- One `-o <path>` step: record the output path and, when no module kind
has yet been set, try to infer one from the output extension. -/
def recordOutput (next_arg : String) (pa : PreparedArgs) (us : UserSettings) :
    PreparedArgs × UserSettings :=
  let us :=
    if us.module_kind.isNone then
      match (pathExtension next_arg).bind deduce_module_kind with
      | some kind => { us with module_kind := some kind }
      | none => us
    else us
  ({ pa with output := some next_arg }, us)

/-- The single left-to-right pass of `prepare_compiler_args` over the
pipeline argument list (the `while let Some(arg) = iter.next()` loop in
`compiler.rs`). -/
def prepLoop : List String → PreparedArgs → BuildSettings → UserSettings →
    Except Err (PreparedArgs × BuildSettings × UserSettings)
  | [], pa, bs, us => .ok (pa, bs, us)
  | arg :: rest, pa, bs, us =>
    if strStartsWith arg "-Wl," then
      let payload := strDrop arg 4
      match splitOnceComma payload with
      | some (x, y) =>
        prepLoop rest { pa with linker_args := pa.linker_args ++ [x, y] } bs us
      | none =>
        prepLoop rest { pa with linker_args := pa.linker_args ++ [payload] } bs us
    else if arg == "-Xlinker" then
      match rest with
      | [] => .error (.expectedArgAfter "-Xlinker")
      | next_arg :: rest =>
        prepLoop rest { pa with linker_args := pa.linker_args ++ [next_arg] } bs us
    else if arg == "-z" then
      match rest with
      | [] => .error (.expectedArgAfter "-z")
      | next_arg :: rest =>
        prepLoop rest { pa with linker_args := pa.linker_args ++ ["-z", next_arg] } bs us
    else if arg == "-o" then
      match rest with
      | [] => .error (.expectedArgAfter "-o")
      | next_arg :: rest =>
        let (pa, us) := recordOutput next_arg pa us
        prepLoop rest pa bs us
    else if strStartsWith arg "-" then
      match update_build_settings_from_arg arg bs us with
      | .error e => .error e
      | .ok (bs, us, keep) =>
        if keep then
          let has_next_arg := CLANG_FLAGS_WITH_ARGS.contains arg
          let pa := { pa with compiler_args := pa.compiler_args ++ [arg] }
          if has_next_arg then
            match rest with
            | [] => prepLoop [] pa bs us
            | next_arg :: rest =>
              prepLoop rest { pa with compiler_args := pa.compiler_args ++ [next_arg] } bs us
          else
            prepLoop rest pa bs us
        else
          prepLoop rest pa bs us
    else
      if strEndsWith arg ".o" || strEndsWith arg ".a" then
        prepLoop rest { pa with linker_inputs := pa.linker_inputs ++ [arg] } bs us
      else
        prepLoop rest { pa with compiler_inputs := pa.compiler_inputs ++ [arg] } bs us

/-- Post-pass scan of the forwarded compiler flags (first loop after the
pass in `prepare_compiler_args`): break at the first match. -/
def scanCompilerArgs : List String → Option ModuleKind
  | [] => none
  | arg :: rest =>
    if arg == "-shared" then some .SharedLibrary
    else if arg == "-c" || arg == "-S" || arg == "-E" then some .ObjectFile
    else scanCompilerArgs rest

/-- Post-pass scan of the forwarded linker flags (second loop after the
pass): break at the first match. -/
def scanLinkerArgs : List String → Option ModuleKind
  | [] => none
  | arg :: rest =>
    if arg == "-shared" then some .SharedLibrary
    else if arg == "-pie" then some .DynamicMain
    else scanLinkerArgs rest

/-- The two guarded post-pass scans: each runs only while the module kind
is still unset. -/
def applyKindScans (us : UserSettings) (pa : PreparedArgs) : UserSettings :=
  let us :=
    match us.module_kind with
    | some _ => us
    | none => { us with module_kind := scanCompilerArgs pa.compiler_args }
  match us.module_kind with
  | some _ => us
  | none => { us with module_kind := scanLinkerArgs pa.linker_args }

/-- Initial `PreparedArgs` value. -/
def emptyPreparedArgs : PreparedArgs :=
  { compiler_args := [], linker_args := [], compiler_inputs := [],
    linker_inputs := [], output := none }

/-- Initial `BuildSettings` value used by `prepare_compiler_args`. -/
def initialBuildSettings : BuildSettings :=
  { opt_level := .O0, debug_level := .G0, use_wasm_opt := true }

/-- `prepare_compiler_args` from `compiler.rs`: the in-place mutation of
`user_settings` is modelled by returning the updated settings. -/
def prepare_compiler_args (args : List String) (user_settings : UserSettings) :
    Except Err (PreparedArgs × BuildSettings × UserSettings) :=
  match prepLoop args emptyPreparedArgs initialBuildSettings user_settings with
  | .error e => .error e
  | .ok (pa, bs, us) => .ok (pa, bs, applyKindScans us pa)

/-- Fresh user settings as constructed in the `compiler.rs` unit tests:
nothing set, everything empty. -/
def freshUserSettings : UserSettings :=
  { sysroot_location := none, llvm_location := .FromSystem 0,
    extra_compiler_flags := [], extra_linker_flags := [],
    force_wasm_opt := false, wasm_opt_flags := [], module_kind := none,
    wasm_exceptions := false, pic := false }

/-- The loop of `prepare_linker_args` from `compiler.rs`. -/
def prepLinkLoop : List String → PreparedArgs → UserSettings →
    Except Err (PreparedArgs × UserSettings)
  | [], pa, us => .ok (pa, us)
  | arg :: rest, pa, us =>
    if arg == "-o" then
      match rest with
      | [] => .error (.expectedArgAfter "-o")
      | next_arg :: rest =>
        let (pa, us) := recordOutput next_arg pa us
        prepLinkLoop rest pa us
    else if strStartsWith arg "-" then
      let has_next_arg := WASM_LD_FLAGS_WITH_ARGS.contains arg
      let pa := { pa with linker_args := pa.linker_args ++ [arg] }
      if has_next_arg then
        match rest with
        | [] => prepLinkLoop [] pa us
        | next_arg :: rest =>
          prepLinkLoop rest { pa with linker_args := pa.linker_args ++ [next_arg] } us
      else
        prepLinkLoop rest pa us
    else
      prepLinkLoop rest { pa with linker_inputs := pa.linker_inputs ++ [arg] } us

/-- `prepare_linker_args` from `compiler.rs`: the loop followed by the
linker-flag module-kind scan (guarded on the kind being unset). -/
def prepare_linker_args (args : List String) (user_settings : UserSettings) :
    Except Err (PreparedArgs × UserSettings) :=
  match prepLinkLoop args emptyPreparedArgs user_settings with
  | .error e => .error e
  | .ok (pa, us) =>
    match us.module_kind with
    | some _ => .ok (pa, us)
    | none => .ok (pa, { us with module_kind := scanLinkerArgs pa.linker_args })

/-- `output_path` from `compiler.rs`: the explicit output path, or a
kind-dependent default. -/
def output_path (st : State) : String :=
  match st.args.output with
  | some output => output
  | none =>
    match st.user_settings.moduleKind with
    | .StaticMain | .DynamicMain | .SharedLibrary => "a.out"
    | .ObjectFile => "a.o"

/-- The shared prefix of mandatory compile flags built at the top of
`compile_inputs` in `compiler.rs`. -/
def compilerSharedArgs (st : State) : List String :=
  ["--sysroot", st.user_settings.sysrootLocation, "--target=wasm32-wasi",
   "-c", "-matomics", "-mbulk-memory", "-mmutable-globals", "-pthread",
   "-mthread-model", "posix", "-fno-trapping-math", "-D_WASI_EMULATED_MMAN",
   "-D_WASI_EMULATED_SIGNAL", "-D_WASI_EMULATED_PROCESS_CLOCKS"]
  ++ st.user_settings.extra_compiler_flags
  ++ (if st.user_settings.wasm_exceptions then ["-fwasm-exceptions"] else [])
  ++ (if st.user_settings.moduleKind.requires_pic || st.user_settings.pic then
        ["-fPIC", "-ftls-model=global-dynamic", "-fvisibility=default"]
      else ["-ftls-model=local-exec"])
  ++ (if st.cxx then ["-fno-exceptions"] else [])
  ++ (if st.build_settings.debug_level ≠ DebugLevel.None then ["-g"] else [])
  ++ st.args.compiler_args

/-- Counter lookup in the per-basename `filename_counter` map. -/
def ctrGet (m : List (String × Nat)) (k : String) : Nat :=
  match m.find? (fun p => p.1 == k) with
  | some p => p.2
  | none => 0

/-- Counter increment in the per-basename `filename_counter` map. -/
def ctrInc (m : List (String × Nat)) (k : String) : List (String × Nat) :=
  match m with
  | [] => [(k, 1)]
  | p :: rest => if p.1 == k then (p.1, p.2 + 1) :: rest else p :: ctrInc rest k

/-- The per-input compile loop of `compile_inputs` (binary module kinds):
returns the produced object paths (appended to the linker inputs) and the
compile commands, threading the basename counter map. -/
def compileSeparatelyLoop (compiler_path : String) (shared : List String)
    (temp_dir : String) : List String → List (String × Nat) → List String × List Cmd
  | [], _ => ([], [])
  | input :: rest, counters =>
    let input_name := (pathFileName input).getD "output"
    let counter := ctrGet counters input_name
    let outPath := temp_dir ++ "/" ++ input_name ++ "." ++ toString counter ++ ".o"
    let (objs, cmds) := compileSeparatelyLoop compiler_path shared temp_dir rest
      (ctrInc counters input_name)
    (outPath :: objs, ⟨compiler_path, shared ++ [input, "-o", outPath]⟩ :: cmds)

/-- `compile_inputs` from `compiler.rs`.  The mutation of
`state.args.linker_inputs` is modelled by returning the updated state; the
spawned compile commands are returned as a trace (each is assumed to
succeed). -/
def compile_inputs (st : State) : State × List Cmd :=
  let compiler_path :=
    st.user_settings.llvm_location.get_tool_path (if st.cxx then "clang++" else "clang")
  let command_args := compilerSharedArgs st
  if st.user_settings.moduleKind.is_binary then
    let (objs, cmds) :=
      compileSeparatelyLoop compiler_path command_args st.temp_dir st.args.compiler_inputs []
    ({ st with args := { st.args with linker_inputs := st.args.linker_inputs ++ objs } }, cmds)
  else
    (st, [⟨compiler_path, command_args ++ st.args.compiler_inputs ++ ["-o", output_path st]⟩])

/-- `link_inputs` from `compiler.rs`.  The `ObjectFile` arm of the
kind-specific `match` is the source's internal panic, modelled as the
distinguished error `Err.internalObjectLink`. -/
def link_inputs (st : State) : Except Err (List Cmd) :=
  let linker_path := st.user_settings.llvm_location.get_tool_path "wasm-ld"
  let sysroot_lib_path := st.user_settings.sysrootLocation ++ "/lib"
  let sysroot_lib_wasm32_path := sysroot_lib_path ++ "/wasm32-wasi"
  let module_kind := st.user_settings.moduleKind
  match module_kind with
  | .ObjectFile => .error .internalObjectLink
  | _ =>
    let kindSpecific : List String :=
      match module_kind with
      | .StaticMain => ["-z", "stack-size=8388608"]
      | .DynamicMain => ["-pie", "-lcommon-tag-stubs"]
      | .SharedLibrary => ["-shared", "--no-entry", "--unresolved-symbols=import-dynamic"]
      | .ObjectFile => []
    .ok [⟨linker_path,
      st.args.linker_args
      ++ ["--extra-features=atomics", "--extra-features=bulk-memory",
          "--extra-features=mutable-globals", "--shared-memory",
          "--max-memory=4294967296", "--import-memory", "--export-dynamic",
          "--export=__wasm_call_ctors"]
      ++ st.user_settings.extra_linker_flags
      ++ (if st.user_settings.wasm_exceptions then ["-mllvm", "--wasm-enable-sjlj"] else [])
      ++ ["--export=__wasm_init_tls", "--export=__wasm_signal", "--export=__tls_size",
          "--export=__tls_align", "--export=__tls_base"]
      ++ (if module_kind.is_executable then
            ["--export-if-defined=__stack_pointer", "--export-if-defined=__heap_base",
             "--export-if-defined=__data_end"]
          else [])
      ++ (if module_kind == .DynamicMain then ["--whole-archive", "--export-all"] else [])
      ++ (if module_kind.is_executable then
            ["-L" ++ sysroot_lib_path, "-L" ++ sysroot_lib_wasm32_path,
             "-lwasi-emulated-mman", "-lc", "-lresolv", "-lrt", "-lm", "-lpthread",
             "-lutil"]
            ++ (if st.cxx then ["-lc++", "-lc++abi"] else [])
          else [])
      ++ (if module_kind == .DynamicMain then ["--no-whole-archive"] else [])
      ++ (if st.user_settings.moduleKind.requires_pic then
            ["--experimental-pic", "--export-if-defined=__wasm_apply_data_relocs"]
          else [])
      ++ kindSpecific
      ++ st.args.linker_inputs
      ++ [sysroot_lib_wasm32_path ++
            (if module_kind.is_executable then "/crt1.o" else "/scrt1.o")]
      ++ ["-o", output_path st]⟩]

/-- Optimization-level flag emitted by `run_wasm_opt` (the `match` on
`opt_level`): nothing at all for `O0`. -/
def wasmOptLevelArgs : OptLevel → List String
  | .O0 => []
  | .O1 => ["-O1"]
  | .O2 => ["-O2"]
  | .O3 => ["-O3"]
  | .O4 => ["-O4"]
  | .Os => ["-Os"]
  | .Oz => ["-Oz"]

/-- Debug-preserving flag emitted by `run_wasm_opt` (the `match` on
`debug_level`). -/
def wasmOptDebugArgs : DebugLevel → List String
  | .None | .G0 => []
  | .G1 | .G2 | .G3 => ["-g"]

/-- `run_wasm_opt` from `compiler.rs`: if no argument at all has been
pushed (exception flag, optimization flag, user optimizer flags), the
stage is skipped; otherwise the debug flag and the in-place input/output
paths are appended and the optimizer is spawned. -/
def run_wasm_opt (st : State) : List Cmd :=
  let base :=
    (if st.user_settings.wasm_exceptions then ["--experimental-new-eh"] else [])
    ++ wasmOptLevelArgs st.build_settings.opt_level
    ++ st.user_settings.wasm_opt_flags
  if base.isEmpty then []
  else
    [⟨"wasm-opt",
      base ++ wasmOptDebugArgs st.build_settings.debug_level
      ++ [output_path st, "-o", output_path st]⟩]

/-- `run` from `compiler.rs` (the full-pipeline compile entry point).
`temp_dir` stands for the freshly created temporary directory; the result
is the trace of spawned commands, each assumed to exit successfully. -/
def run (args : List String) (user_settings : UserSettings) (run_cxx : Bool)
    (temp_dir : String) : Except Err (List Cmd) :=
  let original_args := args
  match prepare_compiler_args args user_settings with
  | .error e => .error e
  | .ok (pa, bs, us) =>
    if pa.compiler_inputs.isEmpty && pa.linker_inputs.isEmpty then
      .ok [⟨us.llvm_location.get_tool_path (if run_cxx then "clang++" else "clang"),
            original_args⟩]
    else
      let st : State :=
        { user_settings := us, build_settings := bs, args := pa, cxx := run_cxx,
          temp_dir := temp_dir }
      let (st, compileCmds) := compile_inputs st
      match (if st.user_settings.moduleKind.is_binary then link_inputs st else .ok []) with
      | .error e => .error e
      | .ok linkCmds =>
        .ok (compileCmds ++ linkCmds ++
          (if st.user_settings.moduleKind.is_binary && st.build_settings.use_wasm_opt then
            run_wasm_opt st
          else []))

/-- The fixed `BuildSettings` constructed inside `link_only`. -/
def linkOnlyBuildSettings (us : UserSettings) : BuildSettings :=
  { opt_level := .O0, debug_level := .G0, use_wasm_opt := us.force_wasm_opt }

/-- The `State` constructed inside `link_only` (`cxx` is hardcoded to false
and the temporary directory is unused for linking). -/
def linkOnlyState (pa : PreparedArgs) (us : UserSettings) : State :=
  { user_settings := us, build_settings := linkOnlyBuildSettings us, args := pa,
    cxx := false, temp_dir := "." }

/-- `link_only` from `compiler.rs` (the link-only entry point). -/
def link_only (args : List String) (user_settings : UserSettings) :
    Except Err (List Cmd) :=
  match prepare_linker_args args user_settings with
  | .error e => .error e
  | .ok (pa, us) =>
    if !us.moduleKind.is_binary then
      .error (.onlyBinaries us.moduleKind.debugName)
    else if pa.linker_inputs.isEmpty then
      .error .noInput
    else
      match link_inputs (linkOnlyState pa us) with
      | .error e => .error e
      | .ok linkCmds =>
        .ok (linkCmds ++
          (if (linkOnlyState pa us).build_settings.use_wasm_opt then
            run_wasm_opt (linkOnlyState pa us)
          else []))

/-- `separate_user_settings_args` from `lib.rs`: settings-bearing tokens
(`-s...=...`) are partitioned away from the pipeline tokens before any
other classification. -/
def separate_user_settings_args (args : List String) : List String × List String :=
  args.partition (fun arg => strStartsWith arg "-s" && strContainsChar arg '=')

/-- The setting names recognized by `gather_user_settings` in `lib.rs`. -/
def recognizedSettingNames : List String :=
  ["LLVM_LOCATION", "SYSROOT", "WASM_OPT_FLAGS", "MODULE_KIND",
   "WASM_EXCEPTIONS", "CPPSTD"]

/-- `try_get_user_setting_value` from `lib.rs`: first matching `-s<NAME>=`
flag wins (value taken between the first and second `=`), falling back to
the `WASIXCC_<NAME>` environment variable.  The environment is an explicit
snapshot. -/
def try_get_user_setting_value (name : String) (args : List String)
    (env : String → Option String) : Option String :=
  match args.find? (fun arg => strStartsWith arg ("-s" ++ name ++ "=")) with
  | some arg => (strSplitOnChar arg '=').get? 1
  | none => env ("WASIXCC_" ++ name)

/-- `read_bool_user_setting` from `lib.rs` (letter case is handled by
explicit alternatives rather than `to_lowercase`). -/
def read_bool_user_setting (value : String) : Option Bool :=
  match value.toLower with
  | "1" | "true" | "yes" => some true
  | "0" | "false" | "no" => some false
  | _ => none

/-- ASCII whitespace test used by list-setting trimming. -/
def isWhitespaceChar (c : Char) : Bool :=
  c == ' ' || c == '\t' || c == '\n' || c == '\r'

/-- Rust `str::trim` restricted to ASCII whitespace. -/
def strTrim (s : String) : String :=
  ⟨((s.data.dropWhile isWhitespaceChar).reverse.dropWhile isWhitespaceChar).reverse⟩

/-- Cons a character onto the first segment of a split result. -/
def consHeadSegment (c : Char) : List (List Char) → List (List Char)
  | [] => [[c]]
  | h :: t => (c :: h) :: t

/-- Modelled from the spec: the delimiter split of the canonical settings
resolver's list-setting format (the resolver itself — `gather_user_settings`
for the `UserSettings` consumed by `compiler.rs` — is not under `src/`; only
its callers are).  A backslash escapes the delimiter so that it appears
literally inside one element; any other character is kept as-is. -/
def splitEscaped (delim : Char) : List Char → List (List Char)
  | [] => [[]]
  | [c] => if c == delim then [[], []] else [[c]]
  | c :: d :: rest =>
    if c == '\\' && d == delim then consHeadSegment delim (splitEscaped delim rest)
    else if c == delim then [] :: splitEscaped delim (d :: rest)
    else consHeadSegment c (splitEscaped delim (d :: rest))

/-- Modelled from the spec: parsing of a list-valued setting (extra
compiler flags, extra linker flags, optimizer flags).  Segments are split
at unescaped delimiters, trimmed of whitespace, and empty segments are
dropped. -/
def parse_list_setting (delim : Char) (s : String) : List String :=
  (((splitEscaped delim s.data).map (fun cs => strTrim ⟨cs⟩)).filter (fun x => x ≠ ""))

/-- Escape every occurrence of the delimiter in one element with a
backslash. -/
def escapeDelim (delim : Char) (s : String) : String :=
  ⟨s.data.foldr (fun c acc => if c == delim then '\\' :: c :: acc else c :: acc) []⟩

/-- Join strings with a single delimiter character between them. -/
def joinWithChar (c : Char) : List String → String
  | [] => ""
  | [x] => x
  | x :: xs => x ++ String.mk [c] ++ joinWithChar c xs

/-- Modelled from the spec: serialization of a list-valued setting, the
inverse direction of `parse_list_setting`. -/
def serialize_list_setting (delim : Char) (xs : List String) : String :=
  joinWithChar delim (xs.map (escapeDelim delim))

/-! Supporting lemmas about the classifier. -/


theorem update_preserves_module_kind (arg : String) (bs : BuildSettings)
    (us : UserSettings) (out : BuildSettings × UserSettings × Bool)
    (h : update_build_settings_from_arg arg bs us = .ok out) :
    out.2.1.module_kind = us.module_kind := by
  unfold update_build_settings_from_arg at h
  split at h
  · split at h <;> ((try cases h); (try simp_all))
  · split at h
    · split at h <;> ((try cases h); (try simp_all))
    · split at h
      · cases h; simp
      · split at h
        · cases h; simp
        · split at h
          · cases h; simp
          · cases h; simp

theorem update_error_shape (arg : String) (bs : BuildSettings)
    (us : UserSettings) (e : Err)
    (h : update_build_settings_from_arg arg bs us = .error e) :
    e = .invalidArg arg := by
  unfold update_build_settings_from_arg at h
  split at h
  · split at h <;> ((try cases h); (try simp_all))
  · split at h
    · split at h <;> ((try cases h); (try simp_all))
    · split at h
      · cases h
      · split at h
        · cases h
        · split at h
          · cases h
          · cases h

theorem recordOutput_preserves_some (next_arg : String) (pa : PreparedArgs)
    (us : UserSettings) (k : ModuleKind) (h : us.module_kind = some k) :
    recordOutput next_arg pa us = ({ pa with output := some next_arg }, us) := by
  unfold recordOutput
  simp [h]

/-! Single-step unfolding lemmas for the classifier loop, one per branch. -/

theorem prepLoop_nil (pa : PreparedArgs) (bs : BuildSettings) (us : UserSettings) :
    prepLoop [] pa bs us = .ok (pa, bs, us) := rfl

theorem prepLoop_cons_Wl_pair (arg : String) (rest : List String) (pa : PreparedArgs)
    (bs : BuildSettings) (us : UserSettings) (x y : String)
    (h1 : strStartsWith arg "-Wl," = true)
    (hsp : splitOnceComma (strDrop arg 4) = some (x, y)) :
    prepLoop (arg :: rest) pa bs us =
      prepLoop rest { pa with linker_args := pa.linker_args ++ [x, y] } bs us := by
  rw [prepLoop.eq_def]
  simp only [if_pos h1, hsp]

theorem prepLoop_cons_Wl_single (arg : String) (rest : List String) (pa : PreparedArgs)
    (bs : BuildSettings) (us : UserSettings)
    (h1 : strStartsWith arg "-Wl," = true)
    (hsp : splitOnceComma (strDrop arg 4) = none) :
    prepLoop (arg :: rest) pa bs us =
      prepLoop rest { pa with linker_args := pa.linker_args ++ [strDrop arg 4] } bs us := by
  rw [prepLoop.eq_def]
  simp only [if_pos h1, hsp]

theorem prepLoop_cons_Xlinker_last (arg : String) (pa : PreparedArgs)
    (bs : BuildSettings) (us : UserSettings)
    (h1 : ¬ strStartsWith arg "-Wl," = true) (h2 : (arg == "-Xlinker") = true) :
    prepLoop [arg] pa bs us = .error (.expectedArgAfter "-Xlinker") := by
  rw [prepLoop.eq_def]
  simp only [if_neg h1, if_pos h2]

theorem prepLoop_cons_Xlinker_next (arg next_arg : String) (rest : List String)
    (pa : PreparedArgs) (bs : BuildSettings) (us : UserSettings)
    (h1 : ¬ strStartsWith arg "-Wl," = true) (h2 : (arg == "-Xlinker") = true) :
    prepLoop (arg :: next_arg :: rest) pa bs us =
      prepLoop rest { pa with linker_args := pa.linker_args ++ [next_arg] } bs us := by
  rw [prepLoop.eq_def]
  simp only [if_neg h1, if_pos h2]

theorem prepLoop_cons_z_last (arg : String) (pa : PreparedArgs)
    (bs : BuildSettings) (us : UserSettings)
    (h1 : ¬ strStartsWith arg "-Wl," = true) (h2 : ¬ (arg == "-Xlinker") = true)
    (h3 : (arg == "-z") = true) :
    prepLoop [arg] pa bs us = .error (.expectedArgAfter "-z") := by
  rw [prepLoop.eq_def]
  simp only [if_neg h1, if_neg h2, if_pos h3]

theorem prepLoop_cons_z_next (arg next_arg : String) (rest : List String)
    (pa : PreparedArgs) (bs : BuildSettings) (us : UserSettings)
    (h1 : ¬ strStartsWith arg "-Wl," = true) (h2 : ¬ (arg == "-Xlinker") = true)
    (h3 : (arg == "-z") = true) :
    prepLoop (arg :: next_arg :: rest) pa bs us =
      prepLoop rest { pa with linker_args := pa.linker_args ++ ["-z", next_arg] } bs us := by
  rw [prepLoop.eq_def]
  simp only [if_neg h1, if_neg h2, if_pos h3]

theorem prepLoop_cons_o_last (arg : String) (pa : PreparedArgs)
    (bs : BuildSettings) (us : UserSettings)
    (h1 : ¬ strStartsWith arg "-Wl," = true) (h2 : ¬ (arg == "-Xlinker") = true)
    (h3 : ¬ (arg == "-z") = true) (h4 : (arg == "-o") = true) :
    prepLoop [arg] pa bs us = .error (.expectedArgAfter "-o") := by
  rw [prepLoop.eq_def]
  simp only [if_neg h1, if_neg h2, if_neg h3, if_pos h4]

theorem prepLoop_cons_o_next (arg next_arg : String) (rest : List String)
    (pa pa1 : PreparedArgs) (bs : BuildSettings) (us us1 : UserSettings)
    (h1 : ¬ strStartsWith arg "-Wl," = true) (h2 : ¬ (arg == "-Xlinker") = true)
    (h3 : ¬ (arg == "-z") = true) (h4 : (arg == "-o") = true)
    (hrec : recordOutput next_arg pa us = (pa1, us1)) :
    prepLoop (arg :: next_arg :: rest) pa bs us = prepLoop rest pa1 bs us1 := by
  rw [prepLoop.eq_def]
  simp only [if_neg h1, if_neg h2, if_neg h3, if_pos h4, hrec]

theorem prepLoop_cons_update_error (arg : String) (rest : List String)
    (pa : PreparedArgs) (bs : BuildSettings) (us : UserSettings) (e : Err)
    (h1 : ¬ strStartsWith arg "-Wl," = true) (h2 : ¬ (arg == "-Xlinker") = true)
    (h3 : ¬ (arg == "-z") = true) (h4 : ¬ (arg == "-o") = true)
    (h5 : strStartsWith arg "-" = true)
    (hupd : update_build_settings_from_arg arg bs us = .error e) :
    prepLoop (arg :: rest) pa bs us = .error e := by
  rw [prepLoop.eq_def]
  simp only [if_neg h1, if_neg h2, if_neg h3, if_neg h4, if_pos h5, hupd]

theorem prepLoop_cons_flag_consume (arg next_arg : String) (rest : List String)
    (pa : PreparedArgs) (bs bs1 : BuildSettings) (us us1 : UserSettings)
    (h1 : ¬ strStartsWith arg "-Wl," = true) (h2 : ¬ (arg == "-Xlinker") = true)
    (h3 : ¬ (arg == "-z") = true) (h4 : ¬ (arg == "-o") = true)
    (h5 : strStartsWith arg "-" = true)
    (hupd : update_build_settings_from_arg arg bs us = .ok (bs1, us1, true))
    (hnext : CLANG_FLAGS_WITH_ARGS.contains arg = true) :
    prepLoop (arg :: next_arg :: rest) pa bs us =
      prepLoop rest { pa with compiler_args := pa.compiler_args ++ [arg] ++ [next_arg] }
        bs1 us1 := by
  rw [prepLoop.eq_def]
  simp only [if_neg h1, if_neg h2, if_neg h3, if_neg h4, if_pos h5, hupd, hnext,
    if_true, ite_true, if_pos rfl]

theorem prepLoop_cons_flag_consume_last (arg : String)
    (pa : PreparedArgs) (bs bs1 : BuildSettings) (us us1 : UserSettings)
    (h1 : ¬ strStartsWith arg "-Wl," = true) (h2 : ¬ (arg == "-Xlinker") = true)
    (h3 : ¬ (arg == "-z") = true) (h4 : ¬ (arg == "-o") = true)
    (h5 : strStartsWith arg "-" = true)
    (hupd : update_build_settings_from_arg arg bs us = .ok (bs1, us1, true))
    (hnext : CLANG_FLAGS_WITH_ARGS.contains arg = true) :
    prepLoop [arg] pa bs us =
      .ok ({ pa with compiler_args := pa.compiler_args ++ [arg] }, bs1, us1) := by
  rw [prepLoop.eq_def]
  simp only [if_neg h1, if_neg h2, if_neg h3, if_neg h4, if_pos h5, hupd, hnext,
    if_true, ite_true, if_pos rfl, prepLoop_nil]

theorem prepLoop_cons_flag_noconsume (arg : String) (rest : List String)
    (pa : PreparedArgs) (bs bs1 : BuildSettings) (us us1 : UserSettings)
    (h1 : ¬ strStartsWith arg "-Wl," = true) (h2 : ¬ (arg == "-Xlinker") = true)
    (h3 : ¬ (arg == "-z") = true) (h4 : ¬ (arg == "-o") = true)
    (h5 : strStartsWith arg "-" = true)
    (hupd : update_build_settings_from_arg arg bs us = .ok (bs1, us1, true))
    (hnext : CLANG_FLAGS_WITH_ARGS.contains arg = false) :
    prepLoop (arg :: rest) pa bs us =
      prepLoop rest { pa with compiler_args := pa.compiler_args ++ [arg] } bs1 us1 := by
  rw [prepLoop.eq_def]
  simp only [if_neg h1, if_neg h2, if_neg h3, if_neg h4, if_pos h5, hupd, hnext,
    Bool.false_eq_true, if_false, ite_false, if_true, ite_true, if_pos rfl]

theorem prepLoop_cons_flag_nokeep (arg : String) (rest : List String)
    (pa : PreparedArgs) (bs bs1 : BuildSettings) (us us1 : UserSettings)
    (h1 : ¬ strStartsWith arg "-Wl," = true) (h2 : ¬ (arg == "-Xlinker") = true)
    (h3 : ¬ (arg == "-z") = true) (h4 : ¬ (arg == "-o") = true)
    (h5 : strStartsWith arg "-" = true)
    (hupd : update_build_settings_from_arg arg bs us = .ok (bs1, us1, false)) :
    prepLoop (arg :: rest) pa bs us = prepLoop rest pa bs1 us1 := by
  rw [prepLoop.eq_def]
  simp only [if_neg h1, if_neg h2, if_neg h3, if_neg h4, if_pos h5, hupd,
    Bool.false_eq_true, if_false, ite_false]

theorem prepLoop_cons_input_obj (arg : String) (rest : List String)
    (pa : PreparedArgs) (bs : BuildSettings) (us : UserSettings)
    (h1 : ¬ strStartsWith arg "-Wl," = true) (h2 : ¬ (arg == "-Xlinker") = true)
    (h3 : ¬ (arg == "-z") = true) (h4 : ¬ (arg == "-o") = true)
    (h5 : ¬ strStartsWith arg "-" = true)
    (h6 : (strEndsWith arg ".o" || strEndsWith arg ".a") = true) :
    prepLoop (arg :: rest) pa bs us =
      prepLoop rest { pa with linker_inputs := pa.linker_inputs ++ [arg] } bs us := by
  rw [prepLoop.eq_def]
  simp only [if_neg h1, if_neg h2, if_neg h3, if_neg h4, if_neg h5, if_pos h6]

theorem prepLoop_cons_input_src (arg : String) (rest : List String)
    (pa : PreparedArgs) (bs : BuildSettings) (us : UserSettings)
    (h1 : ¬ strStartsWith arg "-Wl," = true) (h2 : ¬ (arg == "-Xlinker") = true)
    (h3 : ¬ (arg == "-z") = true) (h4 : ¬ (arg == "-o") = true)
    (h5 : ¬ strStartsWith arg "-" = true)
    (h6 : ¬ (strEndsWith arg ".o" || strEndsWith arg ".a") = true) :
    prepLoop (arg :: rest) pa bs us =
      prepLoop rest { pa with compiler_inputs := pa.compiler_inputs ++ [arg] } bs us := by
  rw [prepLoop.eq_def]
  simp only [if_neg h1, if_neg h2, if_neg h3, if_neg h4, if_neg h5, if_neg h6]

/-- Classification of the two error families raised inside the argument
pass: a flag missing its required follower, or an invalid `-O`/`-g`
suffix. -/
def Err.isArgGrammar : Err → Bool
  | .expectedArgAfter _ => true
  | .invalidArg _ => true
  | _ => false

theorem prepLoop_invariants :
    ∀ (l : List String) (pa : PreparedArgs) (bs : BuildSettings) (us : UserSettings),
      (∀ (k : ModuleKind) (out : PreparedArgs × BuildSettings × UserSettings),
        us.module_kind = some k → prepLoop l pa bs us = .ok out →
        out.2.2.module_kind = some k) ∧
      (∀ e : Err, prepLoop l pa bs us = .error e → e.isArgGrammar = true) := by
  intro l pa bs us
  induction l, pa, bs, us using prepLoop.induct with
  | case1 pa bs us =>
    constructor
    · intro k out hmk hrun
      rw [prepLoop_nil] at hrun
      injection hrun with h2
      subst h2
      exact hmk
    · intro e hrun
      rw [prepLoop_nil] at hrun
      simp at hrun
  | case2 arg rest pa bs us h1 payload x y hsplit ih =>
    constructor
    · intro k out hmk hrun
      rw [prepLoop_cons_Wl_pair arg rest pa bs us x y h1 hsplit] at hrun
      exact ih.1 k out hmk hrun
    · intro e hrun
      rw [prepLoop_cons_Wl_pair arg rest pa bs us x y h1 hsplit] at hrun
      exact ih.2 e hrun
  | case3 arg rest pa bs us h1 payload hsplit ih =>
    constructor
    · intro k out hmk hrun
      rw [prepLoop_cons_Wl_single arg rest pa bs us h1 hsplit] at hrun
      exact ih.1 k out hmk hrun
    · intro e hrun
      rw [prepLoop_cons_Wl_single arg rest pa bs us h1 hsplit] at hrun
      exact ih.2 e hrun
  | case4 arg pa bs us h1 h2 =>
    constructor
    · intro k out hmk hrun
      rw [prepLoop_cons_Xlinker_last arg pa bs us h1 h2] at hrun
      simp at hrun
    · intro e hrun
      rw [prepLoop_cons_Xlinker_last arg pa bs us h1 h2] at hrun
      injection hrun with h3
      subst h3
      rfl
  | case5 arg pa bs us h1 h2 next_arg rest ih =>
    constructor
    · intro k out hmk hrun
      rw [prepLoop_cons_Xlinker_next arg next_arg rest pa bs us h1 h2] at hrun
      exact ih.1 k out hmk hrun
    · intro e hrun
      rw [prepLoop_cons_Xlinker_next arg next_arg rest pa bs us h1 h2] at hrun
      exact ih.2 e hrun
  | case6 arg pa bs us h1 h2 h3 =>
    constructor
    · intro k out hmk hrun
      rw [prepLoop_cons_z_last arg pa bs us h1 h2 h3] at hrun
      simp at hrun
    · intro e hrun
      rw [prepLoop_cons_z_last arg pa bs us h1 h2 h3] at hrun
      injection hrun with h4
      subst h4
      rfl
  | case7 arg pa bs us h1 h2 h3 next_arg rest ih =>
    constructor
    · intro k out hmk hrun
      rw [prepLoop_cons_z_next arg next_arg rest pa bs us h1 h2 h3] at hrun
      exact ih.1 k out hmk hrun
    · intro e hrun
      rw [prepLoop_cons_z_next arg next_arg rest pa bs us h1 h2 h3] at hrun
      exact ih.2 e hrun
  | case8 arg pa bs us h1 h2 h3 h4 =>
    constructor
    · intro k out hmk hrun
      rw [prepLoop_cons_o_last arg pa bs us h1 h2 h3 h4] at hrun
      simp at hrun
    · intro e hrun
      rw [prepLoop_cons_o_last arg pa bs us h1 h2 h3 h4] at hrun
      injection hrun with h5
      subst h5
      rfl
  | case9 arg pa bs us h1 h2 h3 h4 next_arg rest pa1 us1 hrec ih =>
    constructor
    · intro k out hmk hrun
      rw [prepLoop_cons_o_next arg next_arg rest pa pa1 bs us us1 h1 h2 h3 h4 hrec] at hrun
      rw [recordOutput_preserves_some next_arg pa us k hmk] at hrec
      injection hrec with hpa hus
      subst hus
      exact ih.1 k out hmk hrun
    · intro e hrun
      rw [prepLoop_cons_o_next arg next_arg rest pa pa1 bs us us1 h1 h2 h3 h4 hrec] at hrun
      exact ih.2 e hrun
  | case10 arg rest pa bs us h1 h2 h3 h4 h5 e0 hupd =>
    constructor
    · intro k out hmk hrun
      rw [prepLoop_cons_update_error arg rest pa bs us e0 h1 h2 h3 h4 h5 hupd] at hrun
      simp at hrun
    · intro e hrun
      rw [prepLoop_cons_update_error arg rest pa bs us e0 h1 h2 h3 h4 h5 hupd] at hrun
      injection hrun with h6
      subst h6
      rw [update_error_shape arg bs us e0 hupd]
      rfl
  | case11 arg pa bs us h1 h2 h3 h4 h5 bs1 us1 hna pa1 hnext hupd ih =>
    constructor
    · intro k out hmk hrun
      rw [prepLoop_cons_flag_consume_last arg pa bs bs1 us us1 h1 h2 h3 h4 h5 hupd
        hnext] at hrun
      injection hrun with h6
      subst h6
      exact (update_preserves_module_kind arg bs us (bs1, us1, true) hupd).trans hmk
    · intro e hrun
      rw [prepLoop_cons_flag_consume_last arg pa bs bs1 us us1 h1 h2 h3 h4 h5 hupd
        hnext] at hrun
      simp at hrun
  | case12 arg pa bs us h1 h2 h3 h4 h5 bs1 us1 hna pa1 hnext next_arg rest hupd ih =>
    constructor
    · intro k out hmk hrun
      rw [prepLoop_cons_flag_consume arg next_arg rest pa bs bs1 us us1 h1 h2 h3 h4 h5
        hupd hnext] at hrun
      have hmk1 : us1.module_kind = some k :=
        (update_preserves_module_kind arg bs us (bs1, us1, true) hupd).trans hmk
      exact ih.1 k out hmk1 hrun
    · intro e hrun
      rw [prepLoop_cons_flag_consume arg next_arg rest pa bs bs1 us us1 h1 h2 h3 h4 h5
        hupd hnext] at hrun
      exact ih.2 e hrun
  | case13 arg rest pa bs us h1 h2 h3 h4 h5 bs1 us1 hna pa1 hnext hupd ih =>
    constructor
    · intro k out hmk hrun
      rw [prepLoop_cons_flag_noconsume arg rest pa bs bs1 us us1 h1 h2 h3 h4 h5 hupd
        (Bool.eq_false_iff.mpr hnext)] at hrun
      have hmk1 : us1.module_kind = some k :=
        (update_preserves_module_kind arg bs us (bs1, us1, true) hupd).trans hmk
      exact ih.1 k out hmk1 hrun
    · intro e hrun
      rw [prepLoop_cons_flag_noconsume arg rest pa bs bs1 us us1 h1 h2 h3 h4 h5 hupd
        (Bool.eq_false_iff.mpr hnext)] at hrun
      exact ih.2 e hrun
  | case14 arg rest pa bs us h1 h2 h3 h4 h5 bs1 us1 keep hupd hkeep ih =>
    have hkeep2 : keep = false := by simpa using hkeep
    subst hkeep2
    constructor
    · intro k out hmk hrun
      rw [prepLoop_cons_flag_nokeep arg rest pa bs bs1 us us1 h1 h2 h3 h4 h5 hupd] at hrun
      have hmk1 : us1.module_kind = some k :=
        (update_preserves_module_kind arg bs us (bs1, us1, false) hupd).trans hmk
      exact ih.1 k out hmk1 hrun
    · intro e hrun
      rw [prepLoop_cons_flag_nokeep arg rest pa bs bs1 us us1 h1 h2 h3 h4 h5 hupd] at hrun
      exact ih.2 e hrun
  | case15 arg rest pa bs us h1 h2 h3 h4 h5 h6 ih =>
    constructor
    · intro k out hmk hrun
      rw [prepLoop_cons_input_obj arg rest pa bs us h1 h2 h3 h4 h5 h6] at hrun
      exact ih.1 k out hmk hrun
    · intro e hrun
      rw [prepLoop_cons_input_obj arg rest pa bs us h1 h2 h3 h4 h5 h6] at hrun
      exact ih.2 e hrun
  | case16 arg rest pa bs us h1 h2 h3 h4 h5 h6 ih =>
    constructor
    · intro k out hmk hrun
      rw [prepLoop_cons_input_src arg rest pa bs us h1 h2 h3 h4 h5 h6] at hrun
      exact ih.1 k out hmk hrun
    · intro e hrun
      rw [prepLoop_cons_input_src arg rest pa bs us h1 h2 h3 h4 h5 h6] at hrun
      exact ih.2 e hrun

/-! Single-step unfolding lemmas for the link-only classifier loop. -/

theorem prepLinkLoop_nil (pa : PreparedArgs) (us : UserSettings) :
    prepLinkLoop [] pa us = .ok (pa, us) := rfl

theorem prepLinkLoop_cons_o_last (arg : String) (pa : PreparedArgs) (us : UserSettings)
    (h1 : (arg == "-o") = true) :
    prepLinkLoop [arg] pa us = .error (.expectedArgAfter "-o") := by
  rw [prepLinkLoop.eq_def]
  simp only [if_pos h1]

theorem prepLinkLoop_cons_o_next (arg next_arg : String) (rest : List String)
    (pa pa1 : PreparedArgs) (us us1 : UserSettings) (h1 : (arg == "-o") = true)
    (hrec : recordOutput next_arg pa us = (pa1, us1)) :
    prepLinkLoop (arg :: next_arg :: rest) pa us = prepLinkLoop rest pa1 us1 := by
  rw [prepLinkLoop.eq_def]
  simp only [if_pos h1, hrec]

theorem prepLinkLoop_cons_flag_consume_last (arg : String) (pa : PreparedArgs)
    (us : UserSettings) (h1 : ¬ (arg == "-o") = true)
    (h2 : strStartsWith arg "-" = true)
    (hnext : WASM_LD_FLAGS_WITH_ARGS.contains arg = true) :
    prepLinkLoop [arg] pa us =
      .ok ({ pa with linker_args := pa.linker_args ++ [arg] }, us) := by
  rw [prepLinkLoop.eq_def]
  simp only [if_neg h1, if_pos h2, hnext, if_true, ite_true, if_pos rfl, prepLinkLoop_nil]

theorem prepLinkLoop_cons_flag_consume (arg next_arg : String) (rest : List String)
    (pa : PreparedArgs) (us : UserSettings) (h1 : ¬ (arg == "-o") = true)
    (h2 : strStartsWith arg "-" = true)
    (hnext : WASM_LD_FLAGS_WITH_ARGS.contains arg = true) :
    prepLinkLoop (arg :: next_arg :: rest) pa us =
      prepLinkLoop rest { pa with linker_args := pa.linker_args ++ [arg] ++ [next_arg] } us := by
  rw [prepLinkLoop.eq_def]
  simp only [if_neg h1, if_pos h2, hnext, if_true, ite_true, if_pos rfl]

theorem prepLinkLoop_cons_flag_noconsume (arg : String) (rest : List String)
    (pa : PreparedArgs) (us : UserSettings) (h1 : ¬ (arg == "-o") = true)
    (h2 : strStartsWith arg "-" = true)
    (hnext : WASM_LD_FLAGS_WITH_ARGS.contains arg = false) :
    prepLinkLoop (arg :: rest) pa us =
      prepLinkLoop rest { pa with linker_args := pa.linker_args ++ [arg] } us := by
  rw [prepLinkLoop.eq_def]
  simp only [if_neg h1, if_pos h2, hnext, Bool.false_eq_true, if_false, ite_false,
    if_true, ite_true, if_pos rfl]

theorem prepLinkLoop_cons_input (arg : String) (rest : List String)
    (pa : PreparedArgs) (us : UserSettings) (h1 : ¬ (arg == "-o") = true)
    (h2 : ¬ strStartsWith arg "-" = true) :
    prepLinkLoop (arg :: rest) pa us =
      prepLinkLoop rest { pa with linker_inputs := pa.linker_inputs ++ [arg] } us := by
  rw [prepLinkLoop.eq_def]
  simp only [if_neg h1, if_neg h2]

theorem prepLinkLoop_error_shape :
    ∀ (l : List String) (pa : PreparedArgs) (us : UserSettings) (e : Err),
      prepLinkLoop l pa us = .error e → e = .expectedArgAfter "-o" := by
  intro l pa us
  induction l, pa, us using prepLinkLoop.induct with
  | case1 pa us =>
    intro e hrun
    rw [prepLinkLoop_nil] at hrun
    simp at hrun
  | case2 arg pa us h1 =>
    intro e hrun
    rw [prepLinkLoop_cons_o_last arg pa us h1] at hrun
    injection hrun with h2
    subst h2
    rfl
  | case3 arg pa us h1 next_arg rest pa1 us1 hrec ih =>
    intro e hrun
    rw [prepLinkLoop_cons_o_next arg next_arg rest pa pa1 us us1 h1 hrec] at hrun
    exact ih e hrun
  | case4 arg pa us h1 h2 hna pa1 hnext ih =>
    intro e hrun
    rw [prepLinkLoop_cons_flag_consume_last arg pa us h1 h2 hnext] at hrun
    simp at hrun
  | case5 arg pa us h1 h2 hna pa1 hnext next_arg rest ih =>
    intro e hrun
    rw [prepLinkLoop_cons_flag_consume arg next_arg rest pa us h1 h2 hnext] at hrun
    exact ih e hrun
  | case6 arg rest pa us h1 h2 hna pa1 hnext ih =>
    intro e hrun
    rw [prepLinkLoop_cons_flag_noconsume arg rest pa us h1 h2
      (Bool.eq_false_iff.mpr hnext)] at hrun
    exact ih e hrun
  | case7 arg rest pa us h1 h2 ih =>
    intro e hrun
    rw [prepLinkLoop_cons_input arg rest pa us h1 h2] at hrun
    exact ih e hrun

theorem link_inputs_of_object (st : State)
    (h : st.user_settings.moduleKind = .ObjectFile) :
    link_inputs st = .error .internalObjectLink := by
  unfold link_inputs
  rw [h]

theorem link_inputs_ne_error_of_binary (st : State)
    (h : st.user_settings.moduleKind.is_binary = true) (e : Err) :
    link_inputs st ≠ .error e := by
  intro hrun
  unfold link_inputs at hrun
  cases hk : st.user_settings.moduleKind <;> rw [hk] at hrun <;> simp at hrun
  rw [hk] at h
  simp [ModuleKind.is_binary] at h

/-! Support for the duplicate-flag claim: the build-setting value dictated
by a single `-O`/`-g`/exception token. -/

/-- Optimization level denoted by one valid `-O` token. -/
def decodeOptTok : String → Option OptLevel
  | "-O0" => some .O0
  | "-O1" => some .O1
  | "-O2" => some .O2
  | "-O3" => some .O3
  | "-O4" => some .O4
  | "-Os" => some .Os
  | "-Oz" => some .Oz
  | _ => none

/-- Debug level denoted by one valid `-g` token (bare `-g` means level 2). -/
def decodeDbgTok : String → Option DebugLevel
  | "-g" => some .G2
  | "-g0" => some .G0
  | "-g1" => some .G1
  | "-g2" => some .G2
  | "-g3" => some .G3
  | _ => none

/-- Exception-model value denoted by one exception token. -/
def decodeExcTok : String → Option Bool
  | "-fwasm-exceptions" => some true
  | "-fno-wasm-exceptions" => some false
  | _ => none

/-- The valid optimization, debug and exception tokens. -/
def ogTokens : List String :=
  ["-O0", "-O1", "-O2", "-O3", "-O4", "-Os", "-Oz",
   "-g", "-g0", "-g1", "-g2", "-g3",
   "-fwasm-exceptions", "-fno-wasm-exceptions"]

theorem prepLoop_og :
    ∀ (l : List String) (pa : PreparedArgs) (bs : BuildSettings) (us : UserSettings),
      (∀ x ∈ l, x ∈ ogTokens) →
      prepLoop l pa bs us = .ok
        ({ pa with compiler_args :=
            pa.compiler_args ++ l.filter (fun x => x ≠ "-fwasm-exceptions") },
         { opt_level := l.foldl (fun a x => (decodeOptTok x).getD a) bs.opt_level,
           debug_level := l.foldl (fun a x => (decodeDbgTok x).getD a) bs.debug_level,
           use_wasm_opt := bs.use_wasm_opt },
         { us with wasm_exceptions :=
            l.foldl (fun a x => (decodeExcTok x).getD a) us.wasm_exceptions }) := by
  intro l
  induction l with
  | nil =>
    intro pa bs us _
    simp [prepLoop_nil]
  | cons t l ih =>
    intro pa bs us h
    have hx : t ∈ ogTokens := h t (List.mem_cons_self t l)
    have hl : ∀ x ∈ l, x ∈ ogTokens := fun x hxx => h x (List.mem_cons_of_mem t hxx)
    simp only [ogTokens, List.mem_cons, List.not_mem_nil, or_false] at hx
    rcases hx with rfl | rfl | rfl | rfl | rfl | rfl | rfl | rfl | rfl | rfl | rfl | rfl
      | rfl | rfl
    case inl =>
      rw [prepLoop_cons_flag_noconsume "-O0" l pa bs _ us _ (by decide) (by decide)
        (by decide) (by decide) (by decide) rfl (by decide), ih _ _ _ hl]
      simp [decodeOptTok, decodeDbgTok, decodeExcTok]
    all_goals first
    | (rw [prepLoop_cons_flag_noconsume "-O1" l pa bs _ us _ (by decide) (by decide)
        (by decide) (by decide) (by decide) rfl (by decide), ih _ _ _ hl]
       simp [decodeOptTok, decodeDbgTok, decodeExcTok])
    | (rw [prepLoop_cons_flag_noconsume "-O2" l pa bs _ us _ (by decide) (by decide)
        (by decide) (by decide) (by decide) rfl (by decide), ih _ _ _ hl]
       simp [decodeOptTok, decodeDbgTok, decodeExcTok])
    | (rw [prepLoop_cons_flag_noconsume "-O3" l pa bs _ us _ (by decide) (by decide)
        (by decide) (by decide) (by decide) rfl (by decide), ih _ _ _ hl]
       simp [decodeOptTok, decodeDbgTok, decodeExcTok])
    | (rw [prepLoop_cons_flag_noconsume "-O4" l pa bs _ us _ (by decide) (by decide)
        (by decide) (by decide) (by decide) rfl (by decide), ih _ _ _ hl]
       simp [decodeOptTok, decodeDbgTok, decodeExcTok])
    | (rw [prepLoop_cons_flag_noconsume "-Os" l pa bs _ us _ (by decide) (by decide)
        (by decide) (by decide) (by decide) rfl (by decide), ih _ _ _ hl]
       simp [decodeOptTok, decodeDbgTok, decodeExcTok])
    | (rw [prepLoop_cons_flag_noconsume "-Oz" l pa bs _ us _ (by decide) (by decide)
        (by decide) (by decide) (by decide) rfl (by decide), ih _ _ _ hl]
       simp [decodeOptTok, decodeDbgTok, decodeExcTok])
    | (rw [prepLoop_cons_flag_noconsume "-g" l pa bs _ us _ (by decide) (by decide)
        (by decide) (by decide) (by decide) rfl (by decide), ih _ _ _ hl]
       simp [decodeOptTok, decodeDbgTok, decodeExcTok])
    | (rw [prepLoop_cons_flag_noconsume "-g0" l pa bs _ us _ (by decide) (by decide)
        (by decide) (by decide) (by decide) rfl (by decide), ih _ _ _ hl]
       simp [decodeOptTok, decodeDbgTok, decodeExcTok])
    | (rw [prepLoop_cons_flag_noconsume "-g1" l pa bs _ us _ (by decide) (by decide)
        (by decide) (by decide) (by decide) rfl (by decide), ih _ _ _ hl]
       simp [decodeOptTok, decodeDbgTok, decodeExcTok])
    | (rw [prepLoop_cons_flag_noconsume "-g2" l pa bs _ us _ (by decide) (by decide)
        (by decide) (by decide) (by decide) rfl (by decide), ih _ _ _ hl]
       simp [decodeOptTok, decodeDbgTok, decodeExcTok])
    | (rw [prepLoop_cons_flag_noconsume "-g3" l pa bs _ us _ (by decide) (by decide)
        (by decide) (by decide) (by decide) rfl (by decide), ih _ _ _ hl]
       simp [decodeOptTok, decodeDbgTok, decodeExcTok])
    | (rw [prepLoop_cons_flag_nokeep "-fwasm-exceptions" l pa bs _ us _ (by decide)
        (by decide) (by decide) (by decide) (by decide) rfl, ih _ _ _ hl]
       simp [decodeOptTok, decodeDbgTok, decodeExcTok])
    | (rw [prepLoop_cons_flag_noconsume "-fno-wasm-exceptions" l pa bs _ us _ (by decide)
        (by decide) (by decide) (by decide) (by decide) rfl (by decide), ih _ _ _ hl]
       simp [decodeOptTok, decodeDbgTok, decodeExcTok])

theorem foldl_getD_eq_findSome {α : Type} (f : String → Option α) :
    ∀ (l : List String) (a : α),
      l.foldl (fun acc x => (f x).getD acc) a = (l.reverse.findSome? f).getD a := by
  intro l
  induction l with
  | nil => intro a; rfl
  | cons x l ih =>
    intro a
    rw [List.foldl_cons, ih, List.reverse_cons, List.findSome?_append]
    cases hrev : l.reverse.findSome? f <;> cases hx : f x <;>
      simp [List.findSome?, hx, Option.getD, Option.or]

/-! The claims. -/

/-- C1: For the argument list `["-O2","-g0","-fwasm-exceptions","--no-wasm-opt",
"-Wl,-foo,bar","-Xlinker","baz","-z","zo","-o","out","in.c","lib.o"]` with
fresh user settings, classification succeeds and yields optimization level 2,
debug level 0, post-link optimizer disabled, exception model enabled,
compiler-forwarded flags `["-O2","-g0"]`, linker-forwarded flags
`["-foo","bar","baz","-z","zo"]`, output path `out`, compiler inputs
`["in.c"]` and linker inputs `["lib.o"]`. -/
theorem claim_C1 :
    prepare_compiler_args
      ["-O2", "-g0", "-fwasm-exceptions", "--no-wasm-opt", "-Wl,-foo,bar",
       "-Xlinker", "baz", "-z", "zo", "-o", "out", "in.c", "lib.o"]
      freshUserSettings =
    .ok ({ compiler_args := ["-O2", "-g0"],
           linker_args := ["-foo", "bar", "baz", "-z", "zo"],
           compiler_inputs := ["in.c"], linker_inputs := ["lib.o"],
           output := some "out" },
         { opt_level := .O2, debug_level := .G0, use_wasm_opt := false },
         { freshUserSettings with wasm_exceptions := true }) := rfl

/-- C4: Parsing a list-valued setting round-trips: serializing
`["a", "b:c", "d"]` with `:` as delimiter and `\:` escaping yields
`"a:b\:c:d"`, which parses back to the same three elements; and empty
segments are dropped, so `"a::b"` parses to exactly `["a", "b"]`. -/
theorem claim_C4 :
    serialize_list_setting ':' ["a", "b:c", "d"] = "a:b\\:c:d" ∧
    parse_list_setting ':' (serialize_list_setting ':' ["a", "b:c", "d"]) =
      ["a", "b:c", "d"] ∧
    parse_list_setting ':' "a::b" = ["a", "b"] :=
  ⟨rfl, rfl, rfl⟩

/-- C3 counterexample: `-D` is in the fixed flags-with-argument table, yet
when it is the last token classification succeeds (the flag is forwarded
without an argument) instead of failing with an error naming the flag. -/
theorem claim_C3_counterexample :
    "-D" ∈ CLANG_FLAGS_WITH_ARGS ∧
    prepare_compiler_args ["-D"] freshUserSettings =
      .ok ({ emptyPreparedArgs with compiler_args := ["-D"] },
           initialBuildSettings, freshUserSettings) :=
  ⟨by decide, rfl⟩

/-- C3 (amended): of the flags that expect a following argument, exactly
the explicitly handled `-Xlinker`, `-z` and `-o` are fatal when the
classifier reaches them with no token remaining, and the error names the
flag; classification then never reaches a subprocess.  A flag from the
fixed flags-with-argument table that is reached as the last token is
instead forwarded without an argument and classification succeeds. -/
theorem claim_C3 :
    (∀ (pa : PreparedArgs) (bs : BuildSettings) (us : UserSettings),
      prepLoop ["-Xlinker"] pa bs us = .error (.expectedArgAfter "-Xlinker")) ∧
    (∀ (pa : PreparedArgs) (bs : BuildSettings) (us : UserSettings),
      prepLoop ["-z"] pa bs us = .error (.expectedArgAfter "-z")) ∧
    (∀ (pa : PreparedArgs) (bs : BuildSettings) (us : UserSettings),
      prepLoop ["-o"] pa bs us = .error (.expectedArgAfter "-o")) ∧
    (∀ us : UserSettings,
      prepare_compiler_args ["-Xlinker"] us = .error (.expectedArgAfter "-Xlinker")) ∧
    (∀ us : UserSettings,
      prepare_compiler_args ["-z"] us = .error (.expectedArgAfter "-z")) ∧
    (∀ us : UserSettings,
      prepare_compiler_args ["-o"] us = .error (.expectedArgAfter "-o")) ∧
    (∀ (arg : String) (pa : PreparedArgs) (bs bs1 : BuildSettings)
        (us us1 : UserSettings),
      arg ∈ CLANG_FLAGS_WITH_ARGS →
      arg ≠ "-Xlinker" → arg ≠ "-z" → arg ≠ "-o" →
      strStartsWith arg "-Wl," = false → strStartsWith arg "-" = true →
      update_build_settings_from_arg arg bs us = .ok (bs1, us1, true) →
      prepLoop [arg] pa bs us =
        .ok ({ pa with compiler_args := pa.compiler_args ++ [arg] }, bs1, us1)) := by
  refine ⟨fun pa bs us => rfl, fun pa bs us => rfl, fun pa bs us => rfl,
    fun us => rfl, fun us => rfl, fun us => rfl, ?_⟩
  intro arg pa bs bs1 us us1 hmem hX hz ho hWl hdash hupd
  exact prepLoop_cons_flag_consume_last arg pa bs bs1 us us1
    (by simp [hWl]) (by simp [hX]) (by simp [hz]) (by simp [ho]) hdash hupd
    (List.elem_eq_true_of_mem hmem)

/-- C3 witness: concrete instances of the amended claim: each of
`-Xlinker`, `-z`, `-o` alone fails naming the flag, while the table flag
`-D` alone succeeds, forwarded without an argument. -/
theorem claim_C3_witness :
    prepare_compiler_args ["-Xlinker"] freshUserSettings =
      .error (.expectedArgAfter "-Xlinker") ∧
    prepare_compiler_args ["-z"] freshUserSettings = .error (.expectedArgAfter "-z") ∧
    prepare_compiler_args ["-o"] freshUserSettings = .error (.expectedArgAfter "-o") ∧
    prepLoop ["-D"] emptyPreparedArgs initialBuildSettings freshUserSettings =
      .ok ({ emptyPreparedArgs with compiler_args := ["-D"] },
           initialBuildSettings, freshUserSettings) :=
  ⟨claim_C3.2.2.2.1 freshUserSettings, claim_C3.2.2.2.2.1 freshUserSettings,
   claim_C3.2.2.2.2.2.1 freshUserSettings,
   claim_C3.2.2.2.2.2.2 "-D" emptyPreparedArgs initialBuildSettings initialBuildSettings
     freshUserSettings freshUserSettings (by decide) (by decide) (by decide) (by decide)
     (by decide) (by decide) rfl⟩

theorem scanCompilerArgs_og :
    ∀ l : List String, (∀ x ∈ l, x ∈ ogTokens) → scanCompilerArgs l = none := by
  intro l
  induction l with
  | nil => intro _; rfl
  | cons t l ih =>
    intro h
    have hx : t ∈ ogTokens := h t (List.mem_cons_self t l)
    have hl : ∀ x ∈ l, x ∈ ogTokens := fun x hxx => h x (List.mem_cons_of_mem t hxx)
    simp only [ogTokens, List.mem_cons, List.not_mem_nil, or_false] at hx
    rcases hx with rfl | rfl | rfl | rfl | rfl | rfl | rfl | rfl | rfl | rfl | rfl | rfl
      | rfl | rfl <;> exact ih hl

/-- C10: when an argument list consists of valid `-O`, `-g` and
exception-model tokens, the resulting settings are those dictated by the
rightmost occurrence of each family (each occurrence overwrites the
previous one during the single left-to-right pass), while every valid
`-O`/`-g` occurrence — and the exception-disabling flag, but not the
exception-enabling flag — is kept in the compiler-forwarded list in order
with duplicates preserved. -/
theorem claim_C10 :
    ∀ (l : List String) (us : UserSettings), (∀ x ∈ l, x ∈ ogTokens) →
    prepare_compiler_args l us = .ok
      ({ emptyPreparedArgs with
          compiler_args := l.filter (fun x => x ≠ "-fwasm-exceptions") },
       { opt_level := (l.reverse.findSome? decodeOptTok).getD .O0,
         debug_level := (l.reverse.findSome? decodeDbgTok).getD .G0,
         use_wasm_opt := true },
       { us with wasm_exceptions :=
          (l.reverse.findSome? decodeExcTok).getD us.wasm_exceptions }) := by
  intro l us hOG
  unfold prepare_compiler_args
  rw [prepLoop_og l emptyPreparedArgs initialBuildSettings us hOG]
  have hscan : scanCompilerArgs (l.filter (fun x => x ≠ "-fwasm-exceptions")) = none :=
    scanCompilerArgs_og _ (fun x hx => hOG x (List.mem_of_mem_filter hx))
  cases hmk : us.module_kind with
  | some k =>
    simp [applyKindScans, hmk, foldl_getD_eq_findSome, initialBuildSettings,
      emptyPreparedArgs]
  | none =>
    simp only [ne_eq, decide_not] at hscan
    simp [applyKindScans, hmk, hscan, scanLinkerArgs, foldl_getD_eq_findSome,
      initialBuildSettings, emptyPreparedArgs]

/-- C10 witness: duplicates of `-O`, `-g` and the exception toggles in one
list: the rightmost occurrence of each family wins, and all occurrences
except the exception-enabling flag are forwarded in order. -/
theorem claim_C10_witness :
    prepare_compiler_args
      ["-O1", "-O3", "-g", "-g0", "-fwasm-exceptions", "-fno-wasm-exceptions"]
      freshUserSettings =
    .ok ({ emptyPreparedArgs with
            compiler_args := ["-O1", "-O3", "-g", "-g0", "-fno-wasm-exceptions"] },
         { opt_level := .O3, debug_level := .G0, use_wasm_opt := true },
         freshUserSettings) := by
  have h := claim_C10
    ["-O1", "-O3", "-g", "-g0", "-fwasm-exceptions", "-fno-wasm-exceptions"]
    freshUserSettings (by decide)
  exact h

/-- C9: in compiler mode every raw token starting with `-s` and containing
`=` is partitioned into the settings-bearing list before any other
classification and never reaches the pipeline arguments; a settings lookup
for any name the token does not match is unaffected by it, and
`-std=c++17` in particular matches no recognized setting name, so it is
silently discarded. -/
theorem claim_C9 :
    (∀ (args : List String) (arg : String), arg ∈ args →
      strStartsWith arg "-s" = true → strContainsChar arg '=' = true →
      arg ∈ (separate_user_settings_args args).1 ∧
      arg ∉ (separate_user_settings_args args).2) ∧
    (∀ (name : String) (args : List String) (env : String → Option String),
      (∀ a ∈ args, strStartsWith a ("-s" ++ name ++ "=") = false) →
      try_get_user_setting_value name args env = env ("WASIXCC_" ++ name)) ∧
    (∀ name ∈ recognizedSettingNames,
      strStartsWith "-std=c++17" ("-s" ++ name ++ "=") = false) ∧
    (strStartsWith "-std=c++17" "-s" = true ∧ strContainsChar "-std=c++17" '=' = true) := by
  refine ⟨?_, ?_, ?_, by decide, by decide⟩
  · intro args arg hmem hs he
    unfold separate_user_settings_args
    rw [List.partition_eq_filter_filter]
    constructor
    · exact List.mem_filter.mpr ⟨hmem, by simp [hs, he]⟩
    · intro hcontra
      have := (List.mem_filter.mp hcontra).2
      simp [hs, he] at this
  · intro name args env h
    unfold try_get_user_setting_value
    rw [List.find?_eq_none.mpr (fun a ha => by simp [h a ha])]
  · intro name hname
    simp only [recognizedSettingNames, List.mem_cons, List.not_mem_nil, or_false] at hname
    rcases hname with rfl | rfl | rfl | rfl | rfl | rfl <;> decide

/-- C9 witness: the concrete token `-std=c++17` is separated away from the
pipeline arguments and leaves the `SYSROOT` lookup untouched. -/
theorem claim_C9_witness :
    ("-std=c++17" ∈ (separate_user_settings_args ["-std=c++17", "in.c"]).1 ∧
     "-std=c++17" ∉ (separate_user_settings_args ["-std=c++17", "in.c"]).2) ∧
    try_get_user_setting_value "SYSROOT" ["-std=c++17"] (fun _ => none) = none :=
  ⟨claim_C9.1 ["-std=c++17", "in.c"] "-std=c++17" (by decide) (by decide) (by decide),
   claim_C9.2.1 "SYSROOT" ["-std=c++17"] (fun _ => none) (by decide)⟩

/-- C2: Module-kind precedence.  (i) An explicitly set module kind is never
changed by classification, end to end.  (ii) `-o` never overwrites an
already-set kind.  (iii) When the kind is unset, processing `-o <path>`
infers the kind from the path extension; `.o` gives object-file, `.so`
gives shared-library, anything else gives nothing.  (iv) The post-pass
scans do nothing when a kind is already set; when none is set the
compiler-flag scan has priority and only if it finds nothing does the
linker-flag scan decide; `-shared` among compiler flags infers
shared-library and `-c`/`-S`/`-E` infer object-file, `-shared` among linker
flags infers shared-library and `-pie` infers dynamic-main.  (v) An unset
kind resolves to static-main. -/
theorem claim_C2 :
    (∀ (args : List String) (us : UserSettings) (k : ModuleKind)
        (out : PreparedArgs × BuildSettings × UserSettings),
      us.module_kind = some k → prepare_compiler_args args us = .ok out →
      out.2.2.module_kind = some k) ∧
    (∀ (next_arg : String) (pa : PreparedArgs) (us : UserSettings) (k : ModuleKind),
      us.module_kind = some k →
      recordOutput next_arg pa us = ({ pa with output := some next_arg }, us)) ∧
    (∀ (p : String) (pa : PreparedArgs) (bs : BuildSettings) (us : UserSettings),
      us.module_kind = none →
      prepLoop ["-o", p] pa bs us = .ok ({ pa with output := some p }, bs,
        { us with module_kind := (pathExtension p).bind deduce_module_kind })) ∧
    deduce_module_kind "o" = some .ObjectFile ∧
    deduce_module_kind "so" = some .SharedLibrary ∧
    (∀ e : String, e ≠ "o" → e ≠ "so" → deduce_module_kind e = none) ∧
    (∀ (us : UserSettings) (pa : PreparedArgs) (k : ModuleKind),
      us.module_kind = some k → applyKindScans us pa = us) ∧
    (∀ (us : UserSettings) (pa : PreparedArgs) (k : ModuleKind),
      us.module_kind = none → scanCompilerArgs pa.compiler_args = some k →
      (applyKindScans us pa).module_kind = some k) ∧
    (∀ (us : UserSettings) (pa : PreparedArgs),
      us.module_kind = none → scanCompilerArgs pa.compiler_args = none →
      (applyKindScans us pa).module_kind = scanLinkerArgs pa.linker_args) ∧
    scanCompilerArgs ["-shared"] = some .SharedLibrary ∧
    scanCompilerArgs ["-c"] = some .ObjectFile ∧
    scanCompilerArgs ["-S"] = some .ObjectFile ∧
    scanCompilerArgs ["-E"] = some .ObjectFile ∧
    scanLinkerArgs ["-shared"] = some .SharedLibrary ∧
    scanLinkerArgs ["-pie"] = some .DynamicMain ∧
    (∀ us : UserSettings, us.module_kind = none → us.moduleKind = .StaticMain) := by
  refine ⟨?_, ?_, ?_, rfl, rfl, ?_, ?_, ?_, ?_, rfl, rfl, rfl, rfl, rfl, rfl, ?_⟩
  · intro args us k out hmk hrun
    unfold prepare_compiler_args at hrun
    cases hpl : prepLoop args emptyPreparedArgs initialBuildSettings us with
    | error e => rw [hpl] at hrun; cases hrun
    | ok trip =>
      obtain ⟨pa1, bs1, us1⟩ := trip
      rw [hpl] at hrun
      injection hrun with h2
      subst h2
      have hmk1 : us1.module_kind = some k :=
        (prepLoop_invariants args emptyPreparedArgs initialBuildSettings us).1 k
          (pa1, bs1, us1) hmk hpl
      simp [applyKindScans, hmk1]
  · exact recordOutput_preserves_some
  · intro p pa bs us hmk
    have hrec : recordOutput p pa us = ({ pa with output := some p },
        { us with module_kind := (pathExtension p).bind deduce_module_kind }) := by
      unfold recordOutput
      rw [hmk]
      cases hdm : (pathExtension p).bind deduce_module_kind with
      | some kind => simp
      | none =>
        simp only [Option.isNone_none, if_true, ite_true]
        rw [← hmk]
    rw [prepLoop_cons_o_next "-o" p [] pa _ bs us _ (by decide) (by decide) (by decide)
      (by decide) hrec, prepLoop_nil]
  · intro e h1 h2
    rw [deduce_module_kind.eq_def]
    split
    · exact absurd rfl h1
    · exact absurd rfl h2
    · rfl
  · intro us pa k hmk
    simp [applyKindScans, hmk]
  · intro us pa k hmk hscan
    simp [applyKindScans, hmk, hscan]
  · intro us pa hmk hscan
    simp [applyKindScans, hmk, hscan]
  · intro us hmk
    unfold UserSettings.moduleKind
    rw [hmk]
    rfl

/-- Concrete classification result used by the C2 witness. -/
def usObjectExplicit : UserSettings :=
  { freshUserSettings with module_kind := some .ObjectFile }

/-- Concrete classification result used by the C2 witness. -/
def c2Out : PreparedArgs × BuildSettings × UserSettings :=
  (prepare_compiler_args ["-shared", "x.c"] usObjectExplicit).toOption.getD default

/-- C2 witness: with an explicit object-file setting, a `-shared` compiler
flag does not override the kind. -/
theorem claim_C2_witness :
    usObjectExplicit.module_kind = some .ObjectFile ∧
    prepare_compiler_args ["-shared", "x.c"] usObjectExplicit = .ok c2Out ∧
    c2Out.2.2.module_kind = some .ObjectFile :=
  ⟨rfl, rfl,
   claim_C2.1 ["-shared", "x.c"] usObjectExplicit .ObjectFile c2Out rfl rfl⟩

/-- C5: in the full-pipeline compile entry point, when classification
yields zero compiler inputs and zero linker inputs, the driver performs
exactly one verbatim passthrough invocation of the underlying compiler
with the original, unclassified argument list, and no other pipeline
stage runs. -/
theorem claim_C5 :
    ∀ (args : List String) (us : UserSettings) (cxx : Bool) (temp_dir : String)
      (pa : PreparedArgs) (bs : BuildSettings) (us1 : UserSettings),
      prepare_compiler_args args us = .ok (pa, bs, us1) →
      pa.compiler_inputs = [] → pa.linker_inputs = [] →
      run args us cxx temp_dir =
        .ok [⟨us1.llvm_location.get_tool_path (if cxx then "clang++" else "clang"),
              args⟩] := by
  intro args us cxx temp_dir pa bs us1 hprep h1 h2
  unfold run
  simp only [hprep]
  rw [if_pos (by simp [h1, h2])]

/-- C5 witness: a diagnostic-only invocation with no inputs becomes a
single clang passthrough with the original arguments. -/
theorem claim_C5_witness :
    run ["-dumpmachine"] freshUserSettings false "/tmp" =
      .ok [⟨"clang-0", ["-dumpmachine"]⟩] :=
  claim_C5 ["-dumpmachine"] freshUserSettings false "/tmp" _ _ _ rfl rfl rfl

/-- C6: the post-link-optimize stage spawns the optimizer iff the
exception model is enabled, the optimization level is not `O0`, or the
user optimizer-flags list is nonempty; no optimization-level flag at all
is emitted for `O0`; the debug-preserving flag is emitted exactly for
debug levels 1 to 3; and when the stage runs it is one `wasm-opt`
invocation whose input and output are the same resolved output path.
When no condition holds the stage spawns nothing and still succeeds. -/
theorem claim_C6 (st : State) :
    (run_wasm_opt st ≠ [] ↔
      (st.user_settings.wasm_exceptions = true ∨
       st.build_settings.opt_level ≠ .O0 ∨
       st.user_settings.wasm_opt_flags ≠ [])) ∧
    wasmOptLevelArgs .O0 = [] ∧
    (∀ d : DebugLevel, wasmOptDebugArgs d = ["-g"] ↔ (d = .G1 ∨ d = .G2 ∨ d = .G3)) ∧
    (run_wasm_opt st ≠ [] →
      run_wasm_opt st =
        [⟨"wasm-opt",
          ((if st.user_settings.wasm_exceptions then ["--experimental-new-eh"] else [])
            ++ wasmOptLevelArgs st.build_settings.opt_level
            ++ st.user_settings.wasm_opt_flags)
          ++ wasmOptDebugArgs st.build_settings.debug_level
          ++ [output_path st, "-o", output_path st]⟩]) := by
  have key : (((if st.user_settings.wasm_exceptions then ["--experimental-new-eh"] else [])
        ++ wasmOptLevelArgs st.build_settings.opt_level
        ++ st.user_settings.wasm_opt_flags) = []) ↔
      (st.user_settings.wasm_exceptions = false ∧
       st.build_settings.opt_level = .O0 ∧
       st.user_settings.wasm_opt_flags = []) := by
    cases hexc : st.user_settings.wasm_exceptions <;>
      cases hopt : st.build_settings.opt_level <;> simp [wasmOptLevelArgs]
  have hempty : run_wasm_opt st = [] ↔
      (st.user_settings.wasm_exceptions = false ∧
       st.build_settings.opt_level = .O0 ∧
       st.user_settings.wasm_opt_flags = []) := by
    unfold run_wasm_opt
    by_cases hx : ((if st.user_settings.wasm_exceptions then ["--experimental-new-eh"] else [])
        ++ wasmOptLevelArgs st.build_settings.opt_level
        ++ st.user_settings.wasm_opt_flags) = []
    · rw [if_pos (by simp [hx])]
      exact iff_of_true rfl (key.mp hx)
    · rw [if_neg (by simp only [List.isEmpty_iff]; exact hx)]
      exact iff_of_false (by simp) (fun hc => hx (key.mpr hc))
  refine ⟨?_, rfl, ?_, ?_⟩
  · rw [Ne, hempty]
    constructor
    · intro h
      by_contra hno
      push_neg at hno
      exact h ⟨Bool.eq_false_iff.mpr hno.1, hno.2.1, hno.2.2⟩
    · rintro (h | h | h) ⟨k1, k2, k3⟩
      · rw [h] at k1
        cases k1
      · exact h k2
      · exact h k3
  · intro d
    cases d <;> simp [wasmOptDebugArgs]
  · intro hne
    unfold run_wasm_opt at hne ⊢
    by_cases hx : ((if st.user_settings.wasm_exceptions then ["--experimental-new-eh"] else [])
        ++ wasmOptLevelArgs st.build_settings.opt_level
        ++ st.user_settings.wasm_opt_flags) = []
    · rw [if_pos (by simp [hx])] at hne
      exact absurd rfl hne
    · rw [if_neg (by simp only [List.isEmpty_iff]; exact hx)]

/-- Concrete state exercising the C6 optimizer invocation. -/
def stC6 : State :=
  { user_settings :=
      { sysroot_location := none, llvm_location := .FromSystem 0,
        extra_compiler_flags := [], extra_linker_flags := [],
        force_wasm_opt := false, wasm_opt_flags := ["--enable-threads"],
        module_kind := none, wasm_exceptions := true, pic := false },
    build_settings := { opt_level := .O2, debug_level := .G1, use_wasm_opt := true },
    args := { emptyPreparedArgs with output := some "out.wasm" },
    cxx := false, temp_dir := "." }

/-- C6 witness: a state with exceptions on, `-O2` and one user optimizer
flag produces a single in-place `wasm-opt` invocation with the debug flag. -/
theorem claim_C6_witness :
    run_wasm_opt stC6 =
      [⟨"wasm-opt", ["--experimental-new-eh", "-O2", "--enable-threads", "-g",
        "out.wasm", "-o", "out.wasm"]⟩] :=
  (claim_C6 stC6).2.2.2 (by decide)

/-- C7 counterexample: in link-only mode with `-o x.o` and no inputs, the
linker-input set is empty but the invocation fails with the module-kind
error (the kind check precedes the input check), not the claimed "no
input" error; and the fixed build settings carry debug level 0, a value
distinct from the debug level "none". -/
theorem claim_C7_counterexample :
    link_only ["-o", "x.o"] freshUserSettings = .error (.onlyBinaries "ObjectFile") ∧
    Err.onlyBinaries "ObjectFile" ≠ Err.noInput ∧
    (linkOnlyBuildSettings freshUserSettings).debug_level = .G0 ∧
    DebugLevel.G0 ≠ DebugLevel.None :=
  ⟨rfl, by decide, rfl, by decide⟩

/-- C7 (amended): in link-only mode, after classification: a resolved
module kind that is not a linkable binary is a fatal error naming the
kind; otherwise an empty linker-input set is the fatal "no input" error
before any subprocess; otherwise the build settings used are optimization
level `O0` and debug level 0 with the optimizer toggle equal to the
force-optimize setting, the link stage runs, and the post-link-optimize
stage is entered iff force-optimize is set. -/
theorem claim_C7 :
    ∀ (args : List String) (us : UserSettings) (pa : PreparedArgs) (us1 : UserSettings),
      prepare_linker_args args us = .ok (pa, us1) →
      ((us1.moduleKind.is_binary = false →
        link_only args us = .error (.onlyBinaries us1.moduleKind.debugName)) ∧
       (us1.moduleKind.is_binary = true → pa.linker_inputs = [] →
        link_only args us = .error .noInput) ∧
       (us1.moduleKind.is_binary = true → pa.linker_inputs ≠ [] →
        ∀ linkCmds : List Cmd, link_inputs (linkOnlyState pa us1) = .ok linkCmds →
        link_only args us = .ok (linkCmds ++
          (if us1.force_wasm_opt then run_wasm_opt (linkOnlyState pa us1) else []))) ∧
       (linkOnlyBuildSettings us1).opt_level = .O0 ∧
       (linkOnlyBuildSettings us1).debug_level = .G0 ∧
       (linkOnlyBuildSettings us1).use_wasm_opt = us1.force_wasm_opt) := by
  intro args us pa us1 hprep
  refine ⟨?_, ?_, ?_, rfl, rfl, rfl⟩
  · intro hbin
    unfold link_only
    simp only [hprep]
    rw [if_pos (by simp [hbin])]
  · intro hbin hempty
    unfold link_only
    simp only [hprep]
    rw [if_neg (by simp [hbin]), if_pos (by simp [hempty])]
  · intro hbin hnonempty linkCmds hli
    unfold link_only
    simp only [hprep]
    rw [if_neg (by simp [hbin]),
      if_neg (by simp only [List.isEmpty_iff]; exact hnonempty)]
    simp only [hli]
    rfl

/-- Classification result used by the C7 witness. -/
def c7Prep : PreparedArgs × UserSettings :=
  (prepare_linker_args ["a.wasm"] freshUserSettings).toOption.getD default

/-- Link trace used by the C7 witness. -/
def c7Cmds : List Cmd :=
  (link_inputs (linkOnlyState c7Prep.1 c7Prep.2)).toOption.getD []

/-- C7 witness: a link-only invocation with one input and force-optimize
unset performs the link stage and skips the optimizer. -/
theorem claim_C7_witness :
    link_only ["a.wasm"] freshUserSettings = .ok c7Cmds :=
  (claim_C7 ["a.wasm"] freshUserSettings c7Prep.1 c7Prep.2 rfl).2.2.1 rfl
    (by decide) c7Cmds rfl

theorem prepare_compiler_args_error_shape :
    ∀ (args : List String) (us : UserSettings) (e : Err),
      prepare_compiler_args args us = .error e → e.isArgGrammar = true := by
  intro args us e h
  unfold prepare_compiler_args at h
  cases hpl : prepLoop args emptyPreparedArgs initialBuildSettings us with
  | error e0 =>
    simp only [hpl] at h
    injection h with h2
    subst h2
    exact (prepLoop_invariants args emptyPreparedArgs initialBuildSettings us).2 _ hpl
  | ok trip =>
    obtain ⟨a, b, c⟩ := trip
    simp only [hpl] at h
    simp at h

theorem prepare_linker_args_error_shape :
    ∀ (args : List String) (us : UserSettings) (e : Err),
      prepare_linker_args args us = .error e → e = .expectedArgAfter "-o" := by
  intro args us e h
  unfold prepare_linker_args at h
  cases hpl : prepLinkLoop args emptyPreparedArgs us with
  | error e0 =>
    simp only [hpl] at h
    injection h with h2
    subst h2
    exact prepLinkLoop_error_shape args emptyPreparedArgs us _ hpl
  | ok pr =>
    obtain ⟨pa, us1⟩ := pr
    simp only [hpl] at h
    cases hm : us1.module_kind <;> simp [hm] at h

/-- C8: the internal panic branch of the link stage (object-file kind) is
unreachable from both entry points: neither the full compile pipeline nor
link-only mode can ever surface the internal object-link contract
violation; the link stage cannot fail at all when the resolved kind is a
linkable binary, while calling it directly with object-file kind does hit
the contract-violation branch. -/
theorem claim_C8 :
    (∀ (args : List String) (us : UserSettings) (cxx : Bool) (td : String),
      run args us cxx td ≠ .error .internalObjectLink) ∧
    (∀ (args : List String) (us : UserSettings),
      link_only args us ≠ .error .internalObjectLink) ∧
    (∀ st : State, st.user_settings.moduleKind.is_binary = true →
      ∀ e : Err, link_inputs st ≠ .error e) ∧
    (∀ st : State, st.user_settings.moduleKind = .ObjectFile →
      link_inputs st = .error .internalObjectLink) := by
  refine ⟨?_, ?_, link_inputs_ne_error_of_binary, link_inputs_of_object⟩
  · intro args us cxx td hcon
    unfold run at hcon
    cases hprep : prepare_compiler_args args us with
    | error e =>
      simp only [hprep] at hcon
      injection hcon with h2
      subst h2
      have h3 := prepare_compiler_args_error_shape args us _ hprep
      exact absurd h3 (by decide)
    | ok trip =>
      obtain ⟨pa, bs, us1⟩ := trip
      simp only [hprep] at hcon
      by_cases hempty : (pa.compiler_inputs.isEmpty && pa.linker_inputs.isEmpty) = true
      · rw [if_pos hempty] at hcon
        simp at hcon
      · rw [if_neg hempty] at hcon
        rcases hcomp : compile_inputs
          { user_settings := us1, build_settings := bs, args := pa, cxx := cxx,
            temp_dir := td } with ⟨st1, cmds⟩
        simp only [hcomp] at hcon
        by_cases hb : st1.user_settings.moduleKind.is_binary = true
        · cases hli : link_inputs st1 with
          | error e2 => exact link_inputs_ne_error_of_binary st1 hb e2 hli
          | ok lc =>
            rw [if_pos hb] at hcon
            simp [hli] at hcon
        · rw [if_neg hb] at hcon
          simp at hcon
  · intro args us hcon
    unfold link_only at hcon
    cases hprep : prepare_linker_args args us with
    | error e =>
      simp only [hprep] at hcon
      injection hcon with h2
      subst h2
      have h3 := prepare_linker_args_error_shape args us _ hprep
      exact absurd h3 (by decide)
    | ok pr =>
      obtain ⟨pa, us1⟩ := pr
      simp only [hprep] at hcon
      by_cases hbin : us1.moduleKind.is_binary = true
      · rw [if_neg (by simp [hbin])] at hcon
        by_cases hempty : pa.linker_inputs.isEmpty = true
        · rw [if_pos hempty] at hcon
          simp at hcon
        · rw [if_neg hempty] at hcon
          cases hli : link_inputs (linkOnlyState pa us1) with
          | error e2 => exact link_inputs_ne_error_of_binary _ hbin e2 hli
          | ok lc => simp [hli] at hcon
      · rw [if_pos (by simp [Bool.eq_false_iff.mpr hbin])] at hcon
        simp at hcon

/-- State with explicit object-file kind used by the C8 witness. -/
def stObjectFile : State :=
  { user_settings := usObjectExplicit, build_settings := initialBuildSettings,
    args := emptyPreparedArgs, cxx := false, temp_dir := "." }

/-- C8 witness: concrete instances — both entry points avoid the internal
panic, a binary-kind link cannot fail, and a direct object-file-kind link
hits the contract-violation branch. -/
theorem claim_C8_witness :
    run ["x.c"] freshUserSettings false "/tmp" ≠ .error .internalObjectLink ∧
    link_only ["a.wasm"] freshUserSettings ≠ .error .internalObjectLink ∧
    link_inputs (linkOnlyState emptyPreparedArgs freshUserSettings) ≠
      .error .internalObjectLink ∧
    link_inputs stObjectFile = .error .internalObjectLink :=
  ⟨claim_C8.1 ["x.c"] freshUserSettings false "/tmp",
   claim_C8.2.1 ["a.wasm"] freshUserSettings,
   claim_C8.2.2.1 (linkOnlyState emptyPreparedArgs freshUserSettings) rfl
     .internalObjectLink,
   claim_C8.2.2.2 stObjectFile rfl⟩

end Wasixcc
